import Mathlib

/-!
Verification of the Job Application Orchestration Engine
(`src/job_portal_handler/job_manager.py`, `src/job_portal_handler/job_applier.py`,
`src/utils/anti_detection.py`) against its natural-language specification.

Each Python routine relevant to a claim is shallowly embedded as an executable
Lean definition; file contents, locks and in-memory caches become explicit
state values, exceptions become `Except`, and wall-clock instants become `Nat`
seconds.
-/

namespace ResumeAigent

/-! ## SafeJobStorage (`job_manager.py`, lines 51-138)

A category file on disk is either absent, unparsable (corrupt bytes), or a
JSON array of entries.  Entries are abstracted to `Nat` identifiers: `store_job`
never inspects the existing entries, it only appends. -/

inductive FileContent where
  | absent
  | corrupt
  | arr (entries : List Nat)
deriving DecidableEq, Repr

/-- The pair of the primary `{category}.json` and its `.bak` sibling. -/
structure StorageState where
  primary : FileContent
  backup : FileContent
deriving DecidableEq, Repr

/-- `json.load` on a file: succeeds exactly on a JSON array.  An absent file
raises on `open` and corrupt bytes raise `JSONDecodeError`; both are `none`
here, matching the bare `except` clauses around the backup read. -/
def parseArray : FileContent → Option (List Nat)
  | .arr l => some l
  | _ => none

/-- `SafeJobStorage.store_job` body (lock handling modelled separately):
if the primary exists it is first copied to the backup (`shutil.copy`), then
parsed; on parse failure the backup is parsed; if that also fails the data
resets to `[]`.  The new entry is appended and the primary rewritten. -/
def store_job (s : StorageState) (e : Nat) : StorageState :=
  match s.primary with
  | .absent => { primary := .arr [e], backup := s.backup }
  | p =>
    let backup := p
    let existing :=
      match parseArray p with
      | some l => l
      | none => (parseArray backup).getD []
    { primary := .arr (existing ++ [e]), backup := backup }

/-- External corruption of the primary file (a simulated crash between
writes): its bytes stop parsing, the backup is untouched. -/
def corruptPrimary (s : StorageState) : StorageState :=
  { s with primary := .corrupt }

/-! ## The sentinel lock file (`job_manager.py`, lines 59-80)

The lock file state is `Option Nat`: `none` when no lock file exists, `some
pid` when a lock file written by process `pid` exists.  Polling by a single
writer cannot make a foreign lock disappear, so after the five bounded
attempts `_acquire_lock` either finds the foreign lock still present (and
proceeds without creating anything) or creates its own lock file. -/

def acquire_lock (lock : Option Nat) (pid : Nat) : Option Nat :=
  match lock with
  | some other => some other
  | none => some pid

/-- `_release_lock`: if the lock file exists, unlink it. -/
def release_lock (lock : Option Nat) : Option Nat :=
  match lock with
  | some _ => none
  | none => none

/-- `store_job` seen through its lock discipline: `try: _acquire_lock(); body
finally: _release_lock()`.  `bodyOk` abstracts whether the read-modify-write
body raises; the result pairs the call outcome with the final lock state. -/
def store_job_locked (lock : Option Nat) (pid : Nat) (bodyOk : Bool) :
    Except String Unit × Option Nat :=
  let afterAcquire := acquire_lock lock pid
  let result : Except String Unit :=
    if bodyOk then .ok () else .error "store failed"
  (result, release_lock afterAcquire)

/-- Storage state after one successful `store_job` into a fresh category. -/
def c1_after_first : StorageState :=
  store_job { primary := .absent, backup := .absent } 1

/-- Storage state after the primary is corrupted between writes and a second
`store_job` runs. -/
def c1_after_second : StorageState :=
  store_job (corruptPrimary c1_after_first) 2

/-- C1: two successful `store_job` calls with the primary corrupted in
between.  The first call leaves a one-element array; the corruption is copied
over the backup by the second call, so both parses fail, the store resets to
empty, and the final array holds only the second entry: length 1, not the
pre-crash length 2 the specification promises from backup-based recovery. -/
theorem store_job_backup_recovery_loses_entries :
    c1_after_first.primary = .arr [1] ∧
    c1_after_second.backup = .corrupt ∧
    c1_after_second.primary = .arr [2] ∧
    (parseArray c1_after_second.primary).map List.length = some 1 := by
  decide

/-- C10: after `store_job` returns — whether the body succeeded or raised,
and whether the lock file was created by this call or left over from another
process (acquisition timed out) — the `finally` block has removed the lock
file. -/
theorem store_job_lock_always_released :
    ∀ (lock : Option Nat) (pid : Nat) (bodyOk : Bool),
      (store_job_locked lock pid bodyOk).2 = none ∧
      (∀ other, lock = some other → acquire_lock lock pid = some other) := by
  intro lock pid bodyOk
  cases lock <;> cases bodyOk <;> simp [store_job_locked, acquire_lock, release_lock]

theorem store_job_lock_always_released_witness :
    (store_job_locked (some 999) 1 true).2 = none ∧
    acquire_lock (some 999) 1 = some 999 :=
  ⟨(store_job_lock_always_released (some 999) 1 true).1,
   (store_job_lock_always_released (some 999) 1 true).2 999 rfl⟩

/-! ## Answer cache (`job_applier.py`, lines 32-43, 64, 661-715, 778-845)

One cached answer (`{"type": ..., "question": ..., "answer": ...}`). -/

structure QA where
  qtype : String
  question : String
  answer : String
deriving DecidableEq, Repr

/-- Occurrence of `needle` as a contiguous run inside `hay`; the empty needle
always occurs, matching Python. -/
def containsSub : List Char → List Char → Bool
  | _, [] => true
  | [], _ :: _ => false
  | c :: t, n :: m => List.isPrefixOf (n :: m) (c :: t) || containsSub t (n :: m)

/-- Python substring test `needle in hay`. -/
def pyContains (hay needle : String) : Bool :=
  containsSub hay.toList needle.toList

/-- `JobApplier._sanitize_text` (lines 820-829): lower-case, strip outer
whitespace, drop double quotes and backslashes, delete control characters
(which already removes every newline, so the later `replace` calls for
newline and carriage return are no-ops), then trim trailing commas. -/
def sanitize_text (t : String) : String :=
  let lowered := t.toList.map Char.toLower
  let stripped :=
    ((lowered.dropWhile Char.isWhitespace).reverse.dropWhile Char.isWhitespace).reverse
  let noQuotes := stripped.filter (fun c => c ≠ '"' && c ≠ '\\')
  let noControl := noQuotes.filter (fun c => !(c.toNat ≤ 0x1F || c.toNat = 0x7F))
  String.mk ((noControl.reverse.dropWhile (fun c => c = ',')).reverse)

/-- `question_already_exists_in_data` (lines 32-43): dedup key is the
question text alone. -/
def question_already_exists_in_data (question : String) (data : List QA) : Bool :=
  data.any (fun item => item.question = question)

/-- `JobApplier.answer_contians_company_name` (lines 839-845, source name
kept): true when a current job with a non-`None` company is set and the
company is a substring of the answer.  `company` is that optional field. -/
def answer_contians_company_name (company : Option String) (answer : String) : Bool :=
  match company with
  | some c => pyContains answer c
  | none => false

/-- `JobApplier._save_questions_to_json` (lines 778-818) as a pure function
from the current `answers.json` contents (`none` when the file does not
exist) to the new contents.  The question is sanitized before the file is
opened.  With the file present, the entry is appended only when no entry
with that question text exists and the answer does not embed the current
company name.  With the file absent, the `FileNotFoundError` handler (lines
808-812) writes `[question_data]` unconditionally — neither the duplicate
check nor the company-name check runs on that path. -/
def save_questions_to_json (company : Option String) (data : Option (List QA)) (qd : QA) :
    List QA :=
  let entry := { qd with question := sanitize_text qd.question }
  match data with
  | none => [entry]
  | some data =>
    if !(question_already_exists_in_data entry.question data) &&
        !(answer_contians_company_name company entry.answer) then
      data ++ [entry]
    else
      data

/-- Per-run cache state: the `answers.json` file contents (`none` when the
file does not exist) and the in-memory `self.all_data` attribute.
`allData = none` models the attribute never being assigned: the load in
`__init__` (line 64) and every post-save reload (lines 653, 705, 765) are
commented out in the source. -/
structure ApplierState where
  fileData : Option (List QA)
  allData : Option (List QA)
deriving DecidableEq, Repr

/-- `JobApplier.__init__`: `self.all_data = self._load_questions_from_json()`
is commented out, so a fresh run starts with the attribute unset. -/
def init_applier (fileData : Option (List QA)) : ApplierState :=
  { fileData := fileData, allData := none }

/-- Hypothetical state had the commented-out load at line 64 been active:
`all_data` holds the (present) file contents as of construction. -/
def init_applier_loaded (fileData : List QA) : ApplierState :=
  { fileData := some fileData, allData := some fileData }

/-- Saving an answer during a run: only the file changes; the reload of
`all_data` after each save is commented out in the source. -/
def saveAnswer (company : Option String) (s : ApplierState) (qd : QA) :
    ApplierState :=
  { s with fileData := some (save_questions_to_json company s.fileData qd) }

/-- The lookup in `_handle_textbox_question` (lines 674-684): iterate
`self.all_data` for an item whose question equals the sanitized text and
whose type matches.  Reading the never-assigned attribute raises
`AttributeError`, modelled as `Except.error`. -/
def find_textbox_answer (s : ApplierState) (question qtype : String) :
    Except String (Option String) :=
  match s.allData with
  | none => .error "AttributeError: JobApplier object has no attribute all_data"
  | some data =>
    .ok ((data.find? (fun item =>
      item.question = sanitize_text question && item.qtype = qtype)).map (·.answer))

/-- The C2 scenario question/answer: kind `text`, a fresh question, an answer
free of the current company name. -/
def c2_qa : QA := { qtype := "text", question := "Notice period?", answer := "30 days" }

/-- Run state after saving `c2_qa` in a fresh run whose `answers.json` holds
the empty array. -/
def c2_run : ApplierState := saveAnswer (some "Acme") (init_applier (some [])) c2_qa

/-- Same save, but pretending the commented-out construction-time load of
`all_data` had been active. -/
def c2_run_loaded : ApplierState := saveAnswer (some "Acme") (init_applier_loaded []) c2_qa

/-- C2: save-then-find fails in the same run.  Saving question Q with kind K
and answer A does append the sanitized entry to `answers.json` and a second
identical save is a no-op, but the in-run lookup never returns A: on the
actual code path `self.all_data` was never assigned (`AttributeError`), and
even if the commented-out construction-time load were active the lookup would
still miss `some "30 days"`, because no reload happens after the save. -/
theorem save_then_find_misses_in_same_run :
    c2_run.fileData =
      some [{ qtype := "text", question := "notice period?", answer := "30 days" }] ∧
    saveAnswer (some "Acme") c2_run c2_qa = c2_run ∧
    find_textbox_answer c2_run "Notice period?" "text" =
      .error "AttributeError: JobApplier object has no attribute all_data" ∧
    find_textbox_answer c2_run_loaded "Notice period?" "text" = .ok none ∧
    (some "30 days" : Option String) ≠ none :=
  ⟨by decide, by decide, rfl, rfl, by decide⟩

/-- An answer whose text embeds the current company name `Acme`. -/
def c7_qa : QA :=
  { qtype := "text", question := "Why us?", answer := "I would love to join Acme soon" }

/-- C7: the company-name guard is skipped on the fresh-run path.  When
`answers.json` already exists — even holding just the empty array — the
guard holds and the company-name answer is not persisted; but when the file
does not exist (the normal state of a fresh run, and nothing else in the
repository creates it), the `FileNotFoundError` handler writes the entry
unconditionally, so the company-name answer is persisted into the cache. -/
theorem company_name_answer_persisted_on_fresh_run :
    pyContains c7_qa.answer "Acme" = true ∧
    save_questions_to_json (some "Acme") (some []) c7_qa = [] ∧
    save_questions_to_json (some "Acme") none c7_qa =
      [{ qtype := "text", question := "why us?", answer := "I would love to join Acme soon" }] := by
  decide

/-! ## Language detection (`job_applier.py`, lines 70-97 and 296-345)

`text.lower().split()`: lower-case, then split on whitespace discarding empty
pieces.  Lower-casing is ASCII (as in `Char.toLower`); every marker word and
every claim input is already lower-case outside ASCII letters. -/

def wordsAux : List Char → List Char → List (List Char)
  | [], acc => if acc.isEmpty then [] else [acc.reverse]
  | c :: t, acc =>
    if c.isWhitespace then
      if acc.isEmpty then wordsAux t [] else acc.reverse :: wordsAux t []
    else wordsAux t (c :: acc)

def pyWords (text : String) : List String :=
  (wordsAux (text.toList.map Char.toLower) []).map String.mk

/-- Spanish marker words of `_detect_language`. -/
def spanish_markers : List String :=
  ["el", "la", "los", "las", "un", "una", "unos", "unas",
   "trabajo", "años", "experiencia", "desarrollador",
   "empresa", "requisitos", "conocimientos"]

/-- English marker words of `_detect_language`. -/
def english_markers : List String :=
  ["the", "we", "are", "is", "our", "you", "will",
   "requirements", "experience", "skills", "job",
   "responsibilities", "must", "have"]

def spanishCount (text : String) : Nat :=
  (pyWords text).countP (fun w => spanish_markers.contains w)

def englishCount (text : String) : Nat :=
  (pyWords text).countP (fun w => english_markers.contains w)

/-- `JobApplier._detect_language`: commit to a language only on a strict
majority of at least three marker hits, Spanish checked first. -/
def detect_language (text : String) : Option String :=
  if spanishCount text > englishCount text ∧ spanishCount text > 2 then some "es"
  else if englishCount text > spanishCount text ∧ englishCount text > 2 then some "en"
  else none

/-- The language gate of `_handle_upload_fields` (lines 296-345): an
undetected language raises the ValueError, otherwise the resume file for the
detected language is selected. -/
def resume_language_gate (description : String) : Except String String :=
  match detect_language description with
  | none => .error "Application cancelled: Job description language is not supported. Only English and Spanish are supported."
  | some l => .ok (if l = "en" then "cv eng.pdf" else "cv esp.pdf")

/-- C4 counterexample: the English example text of the specification, taken
literally, ends in the token `skills...`, which is not the marker word
`skills`; only `we` and `are` hit, so the count is 2, below the threshold of
3, and no language is detected (the upload step would fail closed) — not
English as claimed. -/
theorem english_example_text_not_detected :
    englishCount "We are looking for an experienced developer with strong skills..." = 2 ∧
    detect_language "We are looking for an experienced developer with strong skills..." = none ∧
    (none : Option String) ≠ some "en" ∧
    resume_language_gate "We are looking for an experienced developer with strong skills..." =
      .error "Application cancelled: Job description language is not supported. Only English and Spanish are supported." :=
  ⟨by decide, by decide, by decide, rfl⟩

/-- C4 amended: `_detect_language` commits to a language exactly when that
language has at least 3 marker hits and strictly more than the other, and the
upload gate succeeds exactly when a language is detected; the Spanish example
is detected as Spanish, and the English example is detected as English only
once its trailing ellipsis is dropped (so that `skills` matches as a third
marker). -/
theorem detect_language_marker_rule :
    (∀ t : String, detect_language t = some "es" ↔
      (englishCount t < spanishCount t ∧ 3 ≤ spanishCount t)) ∧
    (∀ t : String, detect_language t = some "en" ↔
      (spanishCount t < englishCount t ∧ 3 ≤ englishCount t)) ∧
    (∀ t : String, (resume_language_gate t).isOk = (detect_language t).isSome) ∧
    detect_language "Buscamos un desarrollador con experiencia y conocimientos" = some "es" ∧
    detect_language "We are looking for an experienced developer with strong skills" = some "en" := by
  refine ⟨fun t => ?_, fun t => ?_, fun t => ?_, by decide, by decide⟩
  · unfold detect_language
    split_ifs with h1 h2
    · exact ⟨fun _ => ⟨h1.1, h1.2⟩, fun _ => rfl⟩
    · constructor
      · intro h
        exact absurd (Option.some.inj h) (by decide)
      · intro h
        exact absurd ⟨h.1, h.2⟩ h1
    · constructor
      · intro h
        exact absurd h (by simp)
      · intro h
        exact absurd ⟨h.1, h.2⟩ h1
  · unfold detect_language
    split_ifs with h1 h2
    · constructor
      · intro h
        exact absurd (Option.some.inj h) (by decide)
      · intro h
        omega
    · exact ⟨fun _ => ⟨h2.1, h2.2⟩, fun _ => rfl⟩
    · constructor
      · intro h
        exact absurd h (by simp)
      · intro h
        exact absurd ⟨h.1, h.2⟩ h2
  · unfold resume_language_gate
    cases detect_language t <;> rfl

/-! ## SessionManager.should_end_session (`anti_detection.py`, lines 110-129)

State: requests counted today, local hour of day, and the age in seconds of
the session start stamp (`none` when `last_session` is unset).  The source
compares the age converted to hours against 3; over the integers that is
`3 * 3600 < age`. -/

def should_end_session (totalToday hour : Nat) (sessionAgeSecs : Option Nat) : Bool :=
  if 300 < totalToday then true
  else if 1 ≤ hour ∧ hour ≤ 5 then decide (100 < totalToday)
  else
    match sessionAgeSecs with
    | some age => decide (3 * 3600 < age)
    | none => false

/-- The rule as the specification words it: a plain three-way disjunction, in
which a session longer than 3 hours always ends the session. -/
def claimed_should_end_session (totalToday hour : Nat) (sessionAgeSecs : Option Nat) : Bool :=
  decide (300 < totalToday) ||
  (decide (1 ≤ hour ∧ hour ≤ 5) && decide (100 < totalToday)) ||
  decide (3 * 3600 < sessionAgeSecs.getD 0)

/-- C5 counterexample: at 03:00 with 50 requests and a 4-hour session, the
code returns `false` — the early `return` inside the 01:00-05:00 window
short-circuits the session-duration rule — while the claimed disjunction
returns `true`. -/
theorem night_long_session_not_ended :
    should_end_session 50 3 (some (4 * 3600)) = false ∧
    claimed_should_end_session 50 3 (some (4 * 3600)) = true := by
  decide

/-- C5 amended: `should_end_session` is true exactly when today exceeds 300
requests, or the hour is in 1..5 and today exceeds 100 requests, or the hour
is outside 1..5 and a session stamp exists whose age exceeds 3 hours.  The
duration rule is consulted only outside the 01:00-05:59 window. -/
theorem should_end_session_characterization :
    ∀ (total hour : Nat) (age : Option Nat),
      should_end_session total hour age = true ↔
        (300 < total ∨ ((1 ≤ hour ∧ hour ≤ 5) ∧ 100 < total) ∨
          (¬(1 ≤ hour ∧ hour ≤ 5) ∧ ∃ a, age = some a ∧ 3 * 3600 < a)) := by
  intro total hour age
  unfold should_end_session
  split_ifs with h1 h2
  · simp [h1]
  · cases age <;> simp [h1, h2]
  · cases age <;> simp [h1, h2]

/-! ## JobManager rate limiting (`job_manager.py`, lines 141-163, 246-262, 445-477)

Pacing-relevant state of `JobManager`: the `last_application_time` stamp
(`None` at construction), the per-run `min_delay_between_apps`, and the
`applied` counter.  Times are `Nat` seconds. -/

structure ManagerState where
  lastApplicationTime : Option Nat
  minDelayBetweenApps : Nat
  applied : Nat
deriving DecidableEq, Repr

/-- `JobManager.__init__`: `last_application_time = None`; the minimum delay
is the per-run draw from `random.uniform(45, 75)`, abstracted as a
parameter. -/
def init_job_manager (minDelay : Nat) : ManagerState :=
  { lastApplicationTime := none, minDelayBetweenApps := minDelay, applied := 0 }

/-- `JobManager.apply_rate_limit` reduced to the duration it waits (the wait
is performed unless the operator answers `y` within the prompt timeout): zero
when `last_application_time` is unset or the delay has already elapsed,
otherwise the remainder of the minimum delay. -/
def rate_limit_wait (m : ManagerState) (now : Nat) : Nat :=
  match m.lastApplicationTime with
  | none => 0
  | some t => if now - t < m.minDelayBetweenApps then m.minDelayBetweenApps - (now - t) else 0

/-- `JobManager._apply_to_job` at time `now`, with the `applied += 1` its
caller `apply_jobs` performs on success folded in: records the outcome, bumps
the counter, and finishes with `apply_rate_limit`.  No statement in the
method (or anywhere else in the repository) assigns `last_application_time`.
Returns the new state and the rate-limit wait. -/
def apply_to_job (m : ManagerState) (now : Nat) : ManagerState × Nat :=
  let wait := rate_limit_wait m now
  ({ m with applied := m.applied + 1 }, wait)

/-- C3: the inter-application rate limit never fires.  Applying to a job
leaves `last_application_time` untouched, so it remains `None` for the whole
run and the computed wait is always zero — concretely, a second application 1
second after the first under a 60-second minimum delay waits 0 seconds where
the claim requires 59. -/
theorem rate_limit_between_applications_never_waits :
    (∀ (m : ManagerState) (now : Nat),
      (apply_to_job m now).1.lastApplicationTime = m.lastApplicationTime) ∧
    (∀ (minDelay now : Nat),
      (apply_to_job (init_job_manager minDelay) now).2 = 0) ∧
    (apply_to_job (apply_to_job (init_job_manager 60) 0).1 1).2 = 0 := by
  exact ⟨fun m now => rfl, fun minDelay now => rfl, rfl⟩

/-! ## Job filtering before application (`job_manager.py`, lines 581-678)

Inputs of the per-job skip decision in `apply_jobs` and `_should_skip_job`,
with the collaborator lookups (blacklist regex matches, outcome-file scans,
seen links) abstracted to the booleans they produce. -/

inductive SkipReason where
  | applicantCount
  | prevFailed
  | blacklist
  | seen
  | alreadyAppliedJob
  | alreadyAppliedCompany
deriving DecidableEq, Repr

structure JobChecks where
  applicantCount : Option Int
  minApplicants : Int
  maxApplicants : Int
  prevFailed : Bool
  titleBlacklisted : Bool
  companyBlacklisted : Bool
  locationBlacklisted : Bool
  linkSeen : Bool
  appliedToCompany : Bool
deriving DecidableEq, Repr

/-- `JobManager._is_applicant_count_in_range`:
`self.min_applicants <= count <= self.max_applicants`. -/
def is_applicant_count_in_range (minApplicants maxApplicants count : Int) : Bool :=
  decide (minApplicants ≤ count ∧ count ≤ maxApplicants)

/-- `JobManager.is_blacklisted` (lines 690-699): title, company or location
blacklist match, or the link is in `seen_jobs`. -/
def is_blacklisted (j : JobChecks) : Bool :=
  j.titleBlacklisted || j.companyBlacklisted || j.locationBlacklisted || j.linkSeen

/-- `JobManager._should_skip_job` (lines 659-678), returning which check
rejected the job, `none` for a survivor. -/
def should_skip_job (j : JobChecks) : Option SkipReason :=
  if j.prevFailed then some .prevFailed
  else if is_blacklisted j then some .blacklist
  else if j.linkSeen then some .alreadyAppliedJob
  else if j.appliedToCompany then some .alreadyAppliedCompany
  else none

/-- The per-job decision of `apply_jobs` (lines 601-639): the applicant-count
gate runs first (when a count was extracted), then `_should_skip_job`;
`none` means the job is handed on towards `_apply_to_job`. -/
def apply_jobs_decision (j : JobChecks) : Option SkipReason :=
  match j.applicantCount with
  | some c =>
    if !(is_applicant_count_in_range j.minApplicants j.maxApplicants c) then
      some .applicantCount
    else should_skip_job j
  | none => should_skip_job j

/-- The filter sequence in the order the claim states it: blacklist, seen,
applicant count, already applied, already applied to company. -/
def claimed_filter_order (j : JobChecks) : Option SkipReason :=
  if j.titleBlacklisted || j.companyBlacklisted || j.locationBlacklisted then some .blacklist
  else if j.linkSeen then some .seen
  else if (match j.applicantCount with
           | some c => !(is_applicant_count_in_range j.minApplicants j.maxApplicants c)
           | none => false) then some .applicantCount
  else if j.linkSeen then some .alreadyAppliedJob
  else if j.appliedToCompany then some .alreadyAppliedCompany
  else none

/-- A posting that is both company-blacklisted and far outside the applicant
range: the code records the applicant-count skip, the claimed order would
record the blacklist skip. -/
def c6_job : JobChecks :=
  { applicantCount := some 1000, minApplicants := 1, maxApplicants := 50,
    prevFailed := false, titleBlacklisted := false, companyBlacklisted := true,
    locationBlacklisted := false, linkSeen := false, appliedToCompany := false }

/-- C6 counterexample: the filters do not run in the claimed order — the
applicant-count gate short-circuits before any blacklist check. -/
theorem filter_order_differs_from_claim :
    apply_jobs_decision c6_job = some .applicantCount ∧
    claimed_filter_order c6_job = some .blacklist ∧
    some SkipReason.applicantCount ≠ some SkipReason.blacklist := by
  decide

/-- First rejecting filter of a sequence of gates. -/
def firstFiring (gates : List (Option SkipReason)) : Option SkipReason :=
  gates.findSome? id

def countGate (j : JobChecks) : Option SkipReason :=
  match j.applicantCount with
  | some c =>
    if is_applicant_count_in_range j.minApplicants j.maxApplicants c then none
    else some .applicantCount
  | none => none

def prevFailedGate (j : JobChecks) : Option SkipReason :=
  if j.prevFailed then some .prevFailed else none

def blacklistGate (j : JobChecks) : Option SkipReason :=
  if is_blacklisted j then some .blacklist else none

def seenJobGate (j : JobChecks) : Option SkipReason :=
  if j.linkSeen then some .alreadyAppliedJob else none

def companyGate (j : JobChecks) : Option SkipReason :=
  if j.appliedToCompany then some .alreadyAppliedCompany else none

/-- C6 amended: the actual short-circuit order is applicant-count (when a
count was extracted), previously-failed, blacklist (which itself includes the
seen-link test), already-applied (seen link), already-applied-to-company; a
job reaches the application step exactly when every filter passes. -/
theorem filter_order_characterization :
    ∀ j : JobChecks,
      apply_jobs_decision j =
        firstFiring [countGate j, prevFailedGate j, blacklistGate j,
                     seenJobGate j, companyGate j] ∧
      (apply_jobs_decision j = none ↔
        countGate j = none ∧ ¬j.prevFailed ∧ is_blacklisted j = false ∧
          ¬j.linkSeen ∧ ¬j.appliedToCompany) := by
  intro j
  obtain ⟨cnt, mn, mx, pf, tb, cb, lb, ls, ac⟩ := j
  constructor
  · cases cnt <;>
      simp only [apply_jobs_decision, should_skip_job, firstFiring, countGate,
        prevFailedGate, blacklistGate, seenJobGate, companyGate,
        List.findSome?, id] <;>
      cases pf <;> cases tb <;> cases cb <;> cases lb <;> cases ls <;> cases ac <;>
      simp [is_blacklisted] <;> split_ifs <;> simp_all
  · cases cnt <;>
      simp only [apply_jobs_decision, should_skip_job, firstFiring, countGate,
        prevFailedGate, blacklistGate, seenJobGate, companyGate] <;>
      cases pf <;> cases tb <;> cases cb <;> cases lb <;> cases ls <;> cases ac <;>
      simp [is_blacklisted] <;> split_ifs <;> simp_all

/-- A posting whose only distinguishing input is its applicant count, under
the policy `min=1, max=50` (the shipped `JOB_MIN_APPLICATIONS` and
`JOB_MAX_APPLICATIONS` configuration values). -/
def c9_job (count : Int) : JobChecks :=
  { applicantCount := some count, minApplicants := 1, maxApplicants := 50,
    prevFailed := false, titleBlacklisted := false, companyBlacklisted := false,
    locationBlacklisted := false, linkSeen := false, appliedToCompany := false }

/-- C9: `_is_applicant_count_in_range` is an inclusive range test, and under
`min=1, max=50` counts 0 and 51 are skipped with the applicant-count (outside
range) reason while count 25 survives every filter and proceeds. -/
theorem applicant_count_range_inclusive :
    (∀ mn mx c : Int,
      is_applicant_count_in_range mn mx c = true ↔ (mn ≤ c ∧ c ≤ mx)) ∧
    is_applicant_count_in_range 1 50 1 = true ∧
    is_applicant_count_in_range 1 50 50 = true ∧
    apply_jobs_decision (c9_job 0) = some .applicantCount ∧
    apply_jobs_decision (c9_job 51) = some .applicantCount ∧
    apply_jobs_decision (c9_job 25) = none := by
  refine ⟨fun mn mx c => ?_, by decide, by decide, by decide, by decide, by decide⟩
  simp [is_applicant_count_in_range]

/-! ## Form traversal outcome (`job_applier.py`, lines 125-253)

`_fill_application_form` repeatedly fills the current page and clicks the
next control; each iteration of the while loop (its `fill_up`, `click_next`
and `handle_errors` collaborator calls) is abstracted as one `Except` result
in a list.  After the loop, a submit control either exists or does not. -/

inductive FillOutcome where
  | submitted
  | discardedNoSubmit
deriving DecidableEq, Repr

/-- The while loop over the next-pages. -/
def traverse_pages : List (Except String Unit) → Except String Unit
  | [] => .ok ()
  | step :: rest =>
    match step with
    | .ok () => traverse_pages rest
    | .error e => .error e

/-- `JobApplier._fill_application_form`: after traversal, a present submit
control is clicked and the application record persisted; otherwise the
application is dropped with only a warning log — no exception is raised. -/
def fill_application_form (steps : List (Except String Unit)) (hasSubmit : Bool) :
    Except String FillOutcome :=
  match traverse_pages steps with
  | .error e => .error e
  | .ok () => if hasSubmit then .ok .submitted else .ok .discardedNoSubmit

/-- `JobApplier.job_apply` for the automated path (`manual_mode=False`):
evaluation, then the form; any exception is re-raised after a best-effort
save, and a completed traversal returns `True`. -/
def job_apply (manualMode suitable : Bool) (steps : List (Except String Unit))
    (hasSubmit : Bool) : Except String Bool :=
  if manualMode then .ok suitable
  else
    match fill_application_form steps hasSubmit with
    | .ok _ => .ok true
    | .error e => .error ("Failed to apply to job! Original exception: " ++ e)

/-- C8: when traversal completes without a collaborator exception and no
submit control is ever found, the form is discarded (warning logged, nothing
persisted) and `job_apply` returns normally rather than raising. -/
theorem no_submit_is_discard_not_error
    (steps : List (Except String Unit))
    (hdone : traverse_pages steps = .ok ()) :
    fill_application_form steps false = .ok .discardedNoSubmit ∧
    job_apply false true steps false = .ok true := by
  constructor
  · unfold fill_application_form
    rw [hdone]
    rfl
  · unfold job_apply fill_application_form
    rw [hdone]
    rfl

theorem no_submit_is_discard_not_error_witness :
    traverse_pages [Except.ok (), Except.ok ()] = .ok () ∧
    (fill_application_form [Except.ok (), Except.ok ()] false = .ok .discardedNoSubmit ∧
      job_apply false true [Except.ok (), Except.ok ()] false = .ok true) :=
  ⟨rfl, no_submit_is_discard_not_error [Except.ok (), Except.ok ()] rfl⟩

end ResumeAigent
